import Mathlib

/-!
# Verification of the finance-tracker balance/derivation engine

Shallow embedding of the ledger-derived balance computations, the
progress projections and the scheduled-payment lifecycle of the
finance-tracker repository (Cloudflare worker routes), together with
proofs of the spec's testable properties.

Monetary amounts are modelled as exact rationals (`Rat`); database rows
are lists of records; SQL `SUM ... WHERE` aggregates are sums over
`List.filter`.
-/

namespace FinanceTracker

/-- The transaction `type` column:
`{income, expense, debt_payment, goal_contribution, loan_payment}`. -/
inductive TxType where
  | income
  | expense
  | debt_payment
  | goal_contribution
  | loan_payment
deriving DecidableEq

/-- A row of the `transactions` table (the ledger). -/
structure Transaction where
  id : String
  userId : String
  accountId : String
  categoryId : Option String
  type : TxType
  amount : Rat
  description : Option String
  date : String
  debtId : Option String
  loanId : Option String
  goalId : Option String
  createdAt : String
  updatedAt : String
deriving DecidableEq

/-- A row of the `transfers` table.  `fee` is nullable
(`COALESCE(fee, 0)` in the aggregation queries). -/
structure Transfer where
  id : String
  userId : String
  fromAccountId : String
  toAccountId : String
  amount : Rat
  fee : Option Rat
  date : String
deriving DecidableEq

/-- A row of the `accounts` table (the fields the balance engine reads). -/
structure Account where
  id : String
  userId : String
  name : String
  initialBalance : Rat
  currency : String
  isActive : Bool
  includeInTotal : Bool
deriving DecidableEq

/-- The sum `COALESCE(SUM(amount), 0)` over `transactions` rows matching
`accountId = aid AND userId = uid AND type` income
(routes/accounts.ts, `incomeResult`). -/
def incomeSum (txs : List Transaction) (aid uid : String) : Rat :=
  ((txs.filter (fun t =>
    decide (t.accountId = aid ∧ t.userId = uid ∧ t.type = TxType.income))).map
      Transaction.amount).sum

/-- The sum `COALESCE(SUM(amount), 0)` over `transactions` rows matching
`accountId = aid AND userId = uid AND type` expense
(routes/accounts.ts, `expenseResult`). -/
def expenseSum (txs : List Transaction) (aid uid : String) : Rat :=
  ((txs.filter (fun t =>
    decide (t.accountId = aid ∧ t.userId = uid ∧ t.type = TxType.expense))).map
      Transaction.amount).sum

/-- The sum `COALESCE(SUM(amount), 0)` over `transfers` with
`toAccountId = aid AND userId = uid` (routes/accounts.ts, `transfersInResult`). -/
def transfersInSum (trs : List Transfer) (aid uid : String) : Rat :=
  ((trs.filter (fun t =>
    decide (t.toAccountId = aid ∧ t.userId = uid))).map Transfer.amount).sum

/-- The sum `COALESCE(SUM(amount + COALESCE(fee, 0)), 0)` over `transfers` with
`fromAccountId = aid AND userId = uid` (routes/accounts.ts, `transfersOutResult`). -/
def transfersOutSum (trs : List Transfer) (aid uid : String) : Rat :=
  ((trs.filter (fun t =>
    decide (t.fromAccountId = aid ∧ t.userId = uid))).map
      (fun t => t.amount + t.fee.getD 0)).sum

/-- The balance computed by the account-listing read
(`accountsRouter.get("/")`, routes/accounts.ts lines 36-100):
`initialBalance + income - expense + transfersIn - transfersOut`. -/
def listAccountBalance (txs : List Transaction) (trs : List Transfer)
    (uid : String) (acc : Account) : Rat :=
  acc.initialBalance + incomeSum txs acc.id uid - expenseSum txs acc.id uid
    + transfersInSum trs acc.id uid - transfersOutSum trs acc.id uid

/-- The balance computed by the single-account read
(`accountsRouter.get("/:id")`, routes/accounts.ts lines 134-163):
`initialBalance + income - expense`; no transfer query is issued. -/
def singleAccountBalance (txs : List Transaction) (uid : String)
    (acc : Account) : Rat :=
  acc.initialBalance + incomeSum txs acc.id uid - expenseSum txs acc.id uid

/-- The sum `COALESCE(SUM(amount), 0)` over `transactions` rows whose type is in
`expense OR debt_payment OR goal_contribution OR loan_payment`
(the dashboard helper `calculateAccountBalance`, `expenseResult`). -/
def outflowSum (txs : List Transaction) (aid uid : String) : Rat :=
  ((txs.filter (fun t =>
    decide (t.accountId = aid ∧ t.userId = uid ∧
      (t.type = TxType.expense ∨ t.type = TxType.debt_payment ∨
       t.type = TxType.goal_contribution ∨ t.type = TxType.loan_payment)))).map
      Transaction.amount).sum

/-- The dashboard balance helper `calculateAccountBalance`
(routes/dashboard.ts lines 60-100):
`initialBalance + incomes - (expense + debt_payment + goal_contribution +
loan_payment)`.  It issues no transfer query. -/
def calculateAccountBalance (txs : List Transaction) (aid uid : String)
    (initialBalance : Rat) : Rat :=
  initialBalance + incomeSum txs aid uid - outflowSum txs aid uid

/-- The spec's balance identity, written out from its words: for an
account with initial balance `b`,
`currentBalance = b + Σincome - Σexpense + ΣtransferIn - Σ(transferOut + fee)`
over the entries of the account's owner on that account. -/
def specCurrentBalance (txs : List Transaction) (trs : List Transfer)
    (uid : String) (acc : Account) : Rat :=
  acc.initialBalance
    + ((txs.filter (fun t =>
        decide (t.userId = uid ∧ t.accountId = acc.id ∧ t.type = TxType.income))).map
          Transaction.amount).sum
    - ((txs.filter (fun t =>
        decide (t.userId = uid ∧ t.accountId = acc.id ∧ t.type = TxType.expense))).map
          Transaction.amount).sum
    + ((trs.filter (fun t =>
        decide (t.userId = uid ∧ t.toAccountId = acc.id))).map
          Transfer.amount).sum
    - ((trs.filter (fun t =>
        decide (t.userId = uid ∧ t.fromAccountId = acc.id))).map
          (fun t => t.amount + t.fee.getD 0)).sum

/-- The claim's dashboard-wide balance formula, written out from the
claim's words: `initialBalance + Σincome - Σ(all-outflow types)
+ Σtransfers-in - Σ(transfers-out + fee)`. -/
def claimDashboardBalance (txs : List Transaction) (trs : List Transfer)
    (aid uid : String) (initialBalance : Rat) : Rat :=
  initialBalance
    + ((txs.filter (fun t =>
        decide (t.userId = uid ∧ t.accountId = aid ∧ t.type = TxType.income))).map
          Transaction.amount).sum
    - ((txs.filter (fun t =>
        decide (t.userId = uid ∧ t.accountId = aid ∧
          (t.type = TxType.expense ∨ t.type = TxType.debt_payment ∨
           t.type = TxType.goal_contribution ∨ t.type = TxType.loan_payment)))).map
          Transaction.amount).sum
    + ((trs.filter (fun t =>
        decide (t.userId = uid ∧ t.toAccountId = aid))).map Transfer.amount).sum
    - ((trs.filter (fun t =>
        decide (t.userId = uid ∧ t.fromAccountId = aid))).map
          (fun t => t.amount + t.fee.getD 0)).sum

/-! ## Progress projections (goals, debts, loans) -/

/-- The sum `COALESCE(SUM(amount), 0)` over `goal_contribution` entries linked to
a goal (routes/goals.ts, `contributedResult`; routes/dashboard.ts,
`contributionResult`). -/
def goalCurrentAmount (txs : List Transaction) (uid gid : String) : Rat :=
  ((txs.filter (fun t =>
    decide (t.userId = uid ∧ t.goalId = some gid ∧
      t.type = TxType.goal_contribution))).map Transaction.amount).sum

/-- The sum `COALESCE(SUM(amount), 0)` over `debt_payment` entries linked to a
debt (routes/debts.ts, `paidResult`). -/
def debtPaidAmount (txs : List Transaction) (uid did : String) : Rat :=
  ((txs.filter (fun t =>
    decide (t.userId = uid ∧ t.debtId = some did ∧
      t.type = TxType.debt_payment))).map Transaction.amount).sum

/-- The sum `COALESCE(SUM(amount), 0)` over `loan_payment` entries linked to a
loan (routes/loans.ts, `receivedResult`). -/
def loanReceivedAmount (txs : List Transaction) (uid lid : String) : Rat :=
  ((txs.filter (fun t =>
    decide (t.userId = uid ∧ t.loanId = some lid ∧
      t.type = TxType.loan_payment))).map Transaction.amount).sum

/-- Goal progress as computed by routes/goals.ts
(`Math.min((currentAmount / goal.targetAmount) * 100, 100)`). -/
def goalProgress (targetAmount currentAmount : Rat) : Rat :=
  min (currentAmount / targetAmount * 100) 100

/-- Debt progress as computed by routes/debts.ts
(`Math.min((paidAmount / debt.principalAmount) * 100, 100)`). -/
def debtProgress (principalAmount paidAmount : Rat) : Rat :=
  min (paidAmount / principalAmount * 100) 100

/-- Loan progress as computed by routes/loans.ts
(`Math.min((receivedAmount / loan.principalAmount) * 100, 100)`). -/
def loanProgress (principalAmount receivedAmount : Rat) : Rat :=
  min (receivedAmount / principalAmount * 100) 100

/-- JavaScript `Math.round`: rounds half away from zero toward
positive infinity, i.e. `⌊x + 1/2⌋` for finite values. -/
def jsRound (x : Rat) : Int := ⌊x + (1 : Rat) / 2⌋

/-- Goal progress as computed by the dashboard endpoint
(routes/dashboard.ts, `goalsWithProgress`):
`Math.round((currentAmount / goal.targetAmount) * 100)`, with no clamp. -/
def dashboardGoalProgress (targetAmount currentAmount : Rat) : Int :=
  jsRound (currentAmount / targetAmount * 100)

/-! ## Calendar model of JavaScript `Date` mutators

The recurrence helpers use the JS `Date` mutators `setDate`, `setMonth`
and `setFullYear` on a date parsed from a `YYYY-MM-DD` string (parsed as
UTC midnight; the worker runs at UTC so local accessors agree).  `Date`
normalises out-of-range fields through its internal timestamp: an
overflowing day of month rolls into the following month(s). -/

/-- Gregorian leap year. -/
def isLeapYear (y : Int) : Bool :=
  y % 4 == 0 && (y % 100 != 0 || y % 400 == 0)

/-- Number of days in month `m` (1-12) of year `y`. -/
def daysInMonth (y m : Int) : Int :=
  if m = 2 then (if isLeapYear y then 29 else 28)
  else if m = 4 ∨ m = 6 ∨ m = 9 ∨ m = 11 then 30
  else 31

/-- A calendar date (year, month 1-12, day 1-31). -/
structure CivilDate where
  year : Int
  month : Int
  day : Int
deriving DecidableEq

/-- A `CivilDate` that denotes an actual calendar day. -/
def CivilDate.valid (d : CivilDate) : Prop :=
  1 ≤ d.month ∧ d.month ≤ 12 ∧ 1 ≤ d.day ∧ d.day ≤ daysInMonth d.year d.month

instance (d : CivilDate) : Decidable d.valid := by
  unfold CivilDate.valid; infer_instance

/-- Normalise an overflowing day of month the way the JS `Date`
timestamp does: subtract the current month's length and move to the
next month until the day fits.  Structured on fuel; the fuel is never
exhausted for the bounded overflows produced below. -/
def rollDay : Nat → Int → Int → Int → CivilDate
  | 0, y, m, d => ⟨y, m, d⟩
  | fuel + 1, y, m, d =>
    if d > daysInMonth y m then
      if m = 12 then rollDay fuel (y + 1) 1 (d - daysInMonth y m)
      else rollDay fuel y (m + 1) (d - daysInMonth y m)
    else ⟨y, m, d⟩

/-- The mutator `date.setDate(date.getDate() + n)` for `n ≥ 0`. -/
def jsAddDays (dt : CivilDate) (n : Int) : CivilDate :=
  rollDay 600 dt.year dt.month (dt.day + n)

/-- The mutator `date.setMonth(date.getMonth() + n)` for `n ≥ 0`: the month index is
advanced (carrying into the year), then a day past the end of the new
month rolls forward. -/
def jsAddMonths (dt : CivilDate) (n : Int) : CivilDate :=
  let mm : Int := dt.month + n
  rollDay 600 (dt.year + (mm - 1).fdiv 12) ((mm - 1) % 12 + 1) dt.day

/-- The mutator `date.setFullYear(date.getFullYear() + n)`: the year is advanced and
an invalid Feb 29 rolls forward to Mar 1. -/
def jsAddYears (dt : CivilDate) (n : Int) : CivilDate :=
  rollDay 600 (dt.year + n) dt.month dt.day

/-- Split a character list on `'-'`. -/
def splitOnDash : List Char → List Char → List (List Char)
  | [], acc => [acc.reverse]
  | c :: rest, acc =>
    if c = '-' then acc.reverse :: splitOnDash rest []
    else splitOnDash rest (c :: acc)

/-- Decimal digits to a natural number. -/
def digitsToNat (cs : List Char) : Nat :=
  cs.foldl (fun n c => 10 * n + (c.toNat - 48)) 0

/-- Parse a `YYYY-MM-DD` string (the only date format the validators
admit) into a `CivilDate`, as `new Date(s)` does for such strings. -/
def parseDate (s : String) : CivilDate :=
  match splitOnDash s.toList [] with
  | [ys, ms, ds] => ⟨digitsToNat ys, digitsToNat ms, digitsToNat ds⟩
  | _ => ⟨1970, 1, 1⟩

/-- Decimal digits of a natural number (fuel-bounded division loop). -/
def natDigitsAux : Nat → Nat → List Char
  | 0, _ => []
  | fuel + 1, n =>
    if n < 10 then [Char.ofNat (48 + n)]
    else natDigitsAux fuel (n / 10) ++ [Char.ofNat (48 + n % 10)]

/-- Left-pad the decimal digits of `n` with zeros to width `w`. -/
def padNat (w n : Nat) : List Char :=
  let ds := natDigitsAux 12 n
  List.replicate (w - ds.length) '0' ++ ds

/-- Render a `CivilDate` as the date part of `toISOString()`:
`YYYY-MM-DD`. -/
def renderDate (dt : CivilDate) : String :=
  ⟨padNat 4 dt.year.toNat ++ '-' :: padNat 2 dt.month.toNat ++
    '-' :: padNat 2 dt.day.toNat⟩

/-- The recurrence helper `getNextDueDate(currentDate, frequency)`
(routes/scheduled-payments.ts lines 376-398): mutate a parsed `Date` by
frequency and return the ISO date part; an unknown frequency returns
the date unchanged. -/
def getNextDueDate (currentDate frequency : String) : String :=
  let date := parseDate currentDate
  let date' :=
    if frequency = "weekly" then jsAddDays date 7
    else if frequency = "biweekly" then jsAddDays date 14
    else if frequency = "monthly" then jsAddMonths date 1
    else if frequency = "quarterly" then jsAddMonths date 3
    else if frequency = "yearly" then jsAddYears date 1
    else date
  renderDate date'

/-! ## Scheduled payments: data and lifecycle -/

/-- The `status` column of `scheduled_payments`. -/
inductive SPStatus where
  | pending
  | paid
  | cancelled
  | overdue
deriving DecidableEq

/-- A row of the `scheduled_payments` table. -/
structure ScheduledPayment where
  id : String
  userId : String
  name : String
  description : Option String
  amount : Rat
  currency : String
  dueDate : String
  status : SPStatus
  categoryId : Option String
  accountId : Option String
  debtId : Option String
  loanId : Option String
  debtInstallmentId : Option String
  isRecurring : Bool
  recurringFrequency : Option String
  priority : String
  tags : Option String
  notes : Option String
  reminderDays : Int
  paidDate : Option String
  paidAmount : Option Rat
  createdAt : String
  updatedAt : String
deriving DecidableEq

/-- The durable rows the settlement path touches. -/
structure Store where
  payments : List ScheduledPayment
  transactions : List Transaction
deriving DecidableEq

/-- The lookup `SELECT ... WHERE id = pid AND userId = uid LIMIT 1`. -/
def findPayment (ps : List ScheduledPayment) (uid pid : String) :
    Option ScheduledPayment :=
  ps.find? (fun p => p.id == pid && p.userId == uid)

/-- The helper `markOverduePayments` (routes/scheduled-payments.ts lines
403-416) and the inline dashboard sweep (routes/dashboard.ts lines
295-305): `UPDATE scheduled_payments SET status = 'overdue', updatedAt =
now WHERE userId = uid AND status = 'pending' AND dueDate <= today`. -/
def markOverduePayments (ps : List ScheduledPayment)
    (uid today now : String) : List ScheduledPayment :=
  ps.map (fun p =>
    if p.userId = uid ∧ p.status = SPStatus.pending ∧ p.dueDate ≤ today
    then { p with status := SPStatus.overdue, updatedAt := now }
    else p)

/-- The validated body of `POST /:id/pay` (`markPaymentAsPaidSchema`). -/
structure PayInput where
  paidDate : Option String
  paidAmount : Option Rat
  createNextRecurrence : Bool
deriving DecidableEq

/-- Domain-level rejections of the settlement route. -/
inductive PayError where
  | notFound
  | alreadyPaid
  | cancelledPayment
deriving DecidableEq

/-- The next-occurrence record cloned on settlement of a recurring
payment (routes/scheduled-payments.ts lines 765-789). -/
def nextRecurrence (payment : ScheduledPayment) (uid freq newId now : String) :
    ScheduledPayment :=
  { id := newId
    userId := uid
    name := payment.name
    description := payment.description
    amount := payment.amount
    currency := payment.currency
    dueDate := getNextDueDate payment.dueDate freq
    status := SPStatus.pending
    categoryId := payment.categoryId
    accountId := payment.accountId
    debtId := payment.debtId
    loanId := payment.loanId
    debtInstallmentId := none
    isRecurring := true
    recurringFrequency := some freq
    priority := payment.priority
    tags := payment.tags
    notes := payment.notes
    reminderDays := payment.reminderDays
    paidDate := none
    paidAmount := none
    createdAt := now
    updatedAt := now }

/-- The `expense` ledger entry the settlement route inserts when the
payment has a linked account (routes/scheduled-payments.ts lines
796-815). -/
def settlementTransaction (payment : ScheduledPayment)
    (uid aid txId paidDate : String) (paidAmount : Rat) (now : String) :
    Transaction :=
  { id := txId
    userId := uid
    accountId := aid
    categoryId := payment.categoryId
    type := TxType.expense
    amount := paidAmount
    description := some ("Pago: " ++ payment.name)
    date := paidDate
    debtId := none
    loanId := none
    goalId := none
    createdAt := now
    updatedAt := now }

/-- The settlement route `POST /:id/pay` (routes/scheduled-payments.ts
lines 715-825): look the payment up by id and owner; reject if already
`paid` or `cancelled`; otherwise mark it paid (update keyed on the id),
optionally insert the next recurrence clone, and, when an account is
linked, insert one `expense` ledger entry for `paidAmount` dated
`paidDate`.  The route returns before any write on a rejection. -/
def payPayment (s : Store) (uid pid : String) (input : PayInput)
    (now today newPaymentId newTxId : String) : Except PayError Store :=
  match findPayment s.payments uid pid with
  | none => .error .notFound
  | some payment =>
    if payment.status = SPStatus.paid then .error .alreadyPaid
    else if payment.status = SPStatus.cancelled then .error .cancelledPayment
    else
      let paidDate := input.paidDate.getD today
      let paidAmount := input.paidAmount.getD payment.amount
      let updatedPayments := s.payments.map (fun p =>
        if p.id = pid then
          { p with status := SPStatus.paid, paidDate := some paidDate,
                   paidAmount := some paidAmount, updatedAt := now }
        else p)
      let withClone :=
        if payment.isRecurring then
          match payment.recurringFrequency with
          | some freq =>
            if input.createNextRecurrence then
              updatedPayments ++ [nextRecurrence payment uid freq newPaymentId now]
            else updatedPayments
          | none => updatedPayments
        else updatedPayments
      let newTxs :=
        match payment.accountId with
        | some aid =>
          s.transactions ++
            [settlementTransaction payment uid aid newTxId paidDate paidAmount now]
        | none => s.transactions
      .ok { payments := withClone, transactions := newTxs }

/-- The state observed after the settlement route: the new store on
success, the untouched store on a rejection (the route returns before
any write). -/
def payStep (s : Store) (uid pid : String) (input : PayInput)
    (now today newPaymentId newTxId : String) : Store :=
  match payPayment s uid pid input now today newPaymentId newTxId with
  | .ok s' => s'
  | .error _ => s

/-- Domain-level rejections of the cancel route. -/
inductive CancelError where
  | notFound
  | alreadyPaid
deriving DecidableEq

/-- The cancel route `POST /:id/cancel` (routes/scheduled-payments.ts
lines 830-858): reject if the payment is already `paid`, otherwise set
status `cancelled` (update keyed on the id). -/
def cancelPayment (ps : List ScheduledPayment) (uid pid now : String) :
    Except CancelError (List ScheduledPayment) :=
  match findPayment ps uid pid with
  | none => .error .notFound
  | some payment =>
    if payment.status = SPStatus.paid then .error .alreadyPaid
    else
      .ok (ps.map (fun p =>
        if p.id = pid then { p with status := SPStatus.cancelled, updatedAt := now }
        else p))

/-- The payments observed after the cancel route (unchanged on a
rejection). -/
def cancelStep (ps : List ScheduledPayment) (uid pid now : String) :
    List ScheduledPayment :=
  match cancelPayment ps uid pid now with
  | .ok ps' => ps'
  | .error _ => ps

/-- The validated body of `PATCH /:id` (`updateScheduledPaymentSchema`):
every field optional, `status` freely choosable among all four states. -/
structure UpdateSPInput where
  name : Option String
  amount : Option Rat
  dueDate : Option String
  status : Option SPStatus
  paidDate : Option (Option String)
  paidAmount : Option (Option Rat)
  priority : Option String
deriving DecidableEq

/-- Apply a partial patch body to a row (`UPDATE ... SET ...parsed.data`):
provided fields overwrite, absent fields are kept. -/
def applyUpdate (p : ScheduledPayment) (u : UpdateSPInput) (now : String) :
    ScheduledPayment :=
  { p with
    name := u.name.getD p.name
    amount := u.amount.getD p.amount
    dueDate := u.dueDate.getD p.dueDate
    status := u.status.getD p.status
    paidDate := match u.paidDate with | some v => v | none => p.paidDate
    paidAmount := match u.paidAmount with | some v => v | none => p.paidAmount
    priority := u.priority.getD p.priority
    updatedAt := now }

/-- The update route `PATCH /:id` (routes/scheduled-payments.ts lines
673-710): 404 when no row matches id and owner, otherwise apply the
patch to the matching row.  No check of the current status is made. -/
def updateScheduledPayment (ps : List ScheduledPayment) (uid pid : String)
    (u : UpdateSPInput) (now : String) :
    Except Unit (List ScheduledPayment) :=
  if ps.any (fun p => p.id == pid && p.userId == uid) then
    .ok (ps.map (fun p =>
      if p.id = pid ∧ p.userId = uid then applyUpdate p u now else p))
  else .error ()

/-- The payments observed after the update route (unchanged on 404). -/
def updateStep (ps : List ScheduledPayment) (uid pid : String)
    (u : UpdateSPInput) (now : String) : List ScheduledPayment :=
  match updateScheduledPayment ps uid pid u now with
  | .ok ps' => ps'
  | .error _ => ps

/-- The `status` of the payment row with a given id. -/
def statusOf (ps : List ScheduledPayment) (pid : String) : Option SPStatus :=
  (ps.find? (fun p => p.id == pid)).map ScheduledPayment.status

/-! ## Bulk generation from a debt -/

/-- A row of the `debts` table (the fields the bulk generator reads). -/
structure Debt where
  id : String
  userId : String
  creditor : String
  principalAmount : Rat
  currency : String
  totalInstallments : Option Int
  startDate : String
  dueDate : Option String
deriving DecidableEq

/-- The bulk-generation route `POST /from-debt/:debtId`
(routes/scheduled-payments.ts lines 889-952): `totalInstallments =
debt.totalInstallments || 1`; each of the `totalInstallments` payments
has amount `principalAmount / totalInstallments`, is due
`startDate + i months` (the debt's due date, or its start date when the
due date is null; JS `setMonth` arithmetic), is `pending`, priority
`high`, linked to the debt and to no installment row, and the whole list
is inserted in one `db.batch`. -/
def fromDebtPayments (debt : Debt) (ids : Nat → String) (now : String) :
    List ScheduledPayment :=
  let totalInstallments : Int :=
    match debt.totalInstallments with
    | some n => if n = 0 then 1 else n
    | none => 1
  let monthlyPayment : Rat := debt.principalAmount / (totalInstallments : Rat)
  let startDate := parseDate (debt.dueDate.getD debt.startDate)
  (List.range totalInstallments.toNat).map (fun i =>
    { id := ids i
      userId := debt.userId
      name := debt.creditor ++ " - Cuota " ++ toString (i + 1) ++ "/" ++
        toString totalInstallments
      description := some ("Pago de deuda: " ++ debt.creditor)
      amount := monthlyPayment
      currency := debt.currency
      dueDate := renderDate (jsAddMonths startDate (i : Int))
      status := SPStatus.pending
      categoryId := none
      accountId := none
      debtId := some debt.id
      loanId := none
      debtInstallmentId := none
      isRecurring := false
      recurringFrequency := none
      priority := "high"
      tags := none
      notes := none
      reminderDays := 3
      paidDate := none
      paidAmount := none
      createdAt := now
      updatedAt := now })

/-! ## Portfolio totals -/

/-- The accounts-listing total (routes/accounts.ts lines 102-105): after
loading the owner's accounts (restricted to active ones unless
`includeInactive`), sum the computed balances of those with
`includeInTotal && isActive`. -/
def accountsListTotalBalance (accs : List Account) (txs : List Transaction)
    (trs : List Transfer) (uid : String) (includeInactive : Bool) : Rat :=
  let accountsList := accs.filter (fun a =>
    if includeInactive then decide (a.userId = uid)
    else decide (a.userId = uid) && a.isActive)
  ((accountsList.filter (fun a => a.includeInTotal && a.isActive)).map
    (fun a => listAccountBalance txs trs uid a)).sum

/-- The dashboard total (routes/dashboard.ts lines 135-165): accounts of
the owner with `isActive`, further restricted to `balanceAccountIds`
when that list is configured non-empty; each balance computed by
`calculateAccountBalance`. -/
def dashboardTotalBalance (accs : List Account) (txs : List Transaction)
    (uid : String) (balanceAccountIds : Option (List String)) : Rat :=
  let conds := fun (a : Account) =>
    decide (a.userId = uid) && a.isActive &&
      (match balanceAccountIds with
       | some l => if l.length > 0 then l.contains a.id else true
       | none => true)
  ((accs.filter conds).map
    (fun a => calculateAccountBalance txs a.id uid a.initialBalance)).sum

/-- The claim's total-portfolio formula, written out from the claim's
words: sum of the computed balance over exactly the owner's accounts
satisfying `isActive ∧ includeInTotal`, optionally restricted to the
configured subset of account ids. -/
def claimTotalPortfolioBalance (accs : List Account) (txs : List Transaction)
    (uid : String) (balanceAccountIds : Option (List String)) : Rat :=
  ((accs.filter (fun a =>
    decide (a.userId = uid ∧ a.isActive = true ∧ a.includeInTotal = true ∧
      (∀ l, balanceAccountIds = some l → l ≠ [] → a.id ∈ l)))).map
    (fun a => calculateAccountBalance txs a.id uid a.initialBalance)).sum

/-- The amended dashboard-total formula: sum of `calculateAccountBalance`
over exactly the owner's accounts satisfying `isActive` (no
`includeInTotal` test), optionally restricted to the configured
non-empty subset of account ids. -/
def specDashboardTotalBalance (accs : List Account) (txs : List Transaction)
    (uid : String) (balanceAccountIds : Option (List String)) : Rat :=
  ((accs.filter (fun a =>
    decide (a.userId = uid ∧ a.isActive = true ∧
      (∀ l, balanceAccountIds = some l → l ≠ [] → a.id ∈ l)))).map
    (fun a => calculateAccountBalance txs a.id uid a.initialBalance)).sum

/-- The amended accounts-listing total formula: sum of the listing
balance over exactly the owner's accounts satisfying
`isActive ∧ includeInTotal` (whether or not inactive accounts were asked
to be listed). -/
def specAccountsListTotalBalance (accs : List Account) (txs : List Transaction)
    (trs : List Transfer) (uid : String) : Rat :=
  ((accs.filter (fun a =>
    decide (a.userId = uid ∧ a.isActive = true ∧ a.includeInTotal = true))).map
    (fun a => listAccountBalance txs trs uid a)).sum

/-! ## Concrete fixtures used by witnesses and counterexamples -/

/-- A ledger entry with the fields the aggregators read. -/
def sampleTx (id uid aid : String) (ty : TxType) (amt : Rat) : Transaction :=
  { id := id, userId := uid, accountId := aid, categoryId := none, type := ty
    amount := amt, description := none, date := "2025-01-01", debtId := none
    loanId := none, goalId := none, createdAt := "", updatedAt := "" }

/-- A ledger entry linked to a goal, debt or loan. -/
def sampleLinkedTx (id uid : String) (ty : TxType) (amt : Rat)
    (gid did lid : Option String) : Transaction :=
  { sampleTx id uid "accX" ty amt with goalId := gid, debtId := did, loanId := lid }

/-- A scheduled-payment row with the fields the lifecycle reads. -/
def samplePayment (id uid : String) (status : SPStatus) (dueDate : String)
    (accountId : Option String) : ScheduledPayment :=
  { id := id, userId := uid, name := "Rent", description := none, amount := 50
    currency := "PEN", dueDate := dueDate, status := status, categoryId := none
    accountId := accountId, debtId := none, loanId := none
    debtInstallmentId := none, isRecurring := false, recurringFrequency := none
    priority := "medium", tags := none, notes := none, reminderDays := 3
    paidDate := none, paidAmount := none, createdAt := "", updatedAt := "" }

/-- Account `accA` of `userA` with initial balance 1000. -/
def accC1 : Account :=
  { id := "accA", userId := "userA", name := "Main", initialBalance := 1000
    currency := "PEN", isActive := true, includeInTotal := true }

/-- A transfer of 200 with fee 5 out of `accA`. -/
def trC1 : Transfer :=
  { id := "t1", userId := "userA", fromAccountId := "accA", toAccountId := "accB"
    amount := 200, fee := some 5, date := "2025-01-02" }

/-- A transfer of 200 into `accA`. -/
def trC2 : Transfer :=
  { id := "t2", userId := "userA", fromAccountId := "accB", toAccountId := "accA"
    amount := 200, fee := none, date := "2025-01-02" }

/-- The debt of the C8 scenario: principal 1200, 12 installments,
start 2025-01-01, no due date. -/
def debtC8 : Debt :=
  { id := "debt1", userId := "userA", creditor := "Bank", principalAmount := 1200
    currency := "PEN", totalInstallments := some 12, startDate := "2025-01-01"
    dueDate := none }

/-- Deterministic ids for the generated payments. -/
def idsC8 (i : Nat) : String := "sp" ++ toString i

/-- A pending payment of `userA` with a linked account. -/
def pC3 : ScheduledPayment :=
  samplePayment "p1" "userA" SPStatus.pending "2025-02-01" (some "accA")

/-- A store holding only `pC3` and an empty ledger. -/
def storeC3 : Store := { payments := [pC3], transactions := [] }

/-- A settlement body carrying no overrides. -/
def payInputC3 : PayInput :=
  { paidDate := none, paidAmount := none, createNextRecurrence := true }

/-- A paid payment of `userA`. -/
def pC5 : ScheduledPayment :=
  samplePayment "p5" "userA" SPStatus.paid "2025-01-01" none

/-- A patch body that sets the status back to `pending`. -/
def updC5 : UpdateSPInput :=
  { name := none, amount := none, dueDate := none
    status := some SPStatus.pending, paidDate := none, paidAmount := none
    priority := none }

/-- An active account excluded from the total (`includeInTotal = false`). -/
def accC9 : Account :=
  { id := "accC", userId := "userA", name := "Hidden", initialBalance := 500
    currency := "PEN", isActive := true, includeInTotal := false }

/-! ## Theorems -/

/-- The shared clamp argument: for a positive target and nonnegative
accumulated amount, `min (accumulated / target * 100) 100` lies in
`[0, 100]` and reaches `100` exactly when the target is reached. -/
theorem progress_clamp (t a : Rat) (ht : 0 < t) (ha : 0 ≤ a) :
    0 ≤ min (a / t * 100) 100 ∧ min (a / t * 100) 100 ≤ 100 ∧
      (min (a / t * 100) 100 = 100 ↔ t ≤ a) := by
  have h0 : (0 : Rat) ≤ a / t * 100 := by positivity
  refine ⟨le_min h0 (by norm_num), min_le_right _ _, ?_⟩
  rw [min_eq_right_iff]
  constructor
  · intro h
    have h1 : (1 : Rat) ≤ a / t := by nlinarith
    exact (one_le_div ht).mp h1
  · intro h
    have h1 : (1 : Rat) ≤ a / t := (one_le_div ht).mpr h
    nlinarith

/-- C6 (amended): for every goal, debt or loan projection of the
dedicated list/read endpoints (routes/goals.ts, routes/debts.ts,
routes/loans.ts) with `target > 0` and `accumulated ≥ 0`, the reported
progress satisfies `0 ≤ progress ≤ 100` and `progress = 100` iff
`accumulated ≥ target`; the dashboard's goal projection, by contrast, is
unclamped (see the counterexample). -/
theorem claim_C6 (target accumulated : Rat)
    (ht : 0 < target) (ha : 0 ≤ accumulated) :
    (0 ≤ goalProgress target accumulated ∧
      goalProgress target accumulated ≤ 100 ∧
      (goalProgress target accumulated = 100 ↔ target ≤ accumulated))
  ∧ (0 ≤ debtProgress target accumulated ∧
      debtProgress target accumulated ≤ 100 ∧
      (debtProgress target accumulated = 100 ↔ target ≤ accumulated))
  ∧ (0 ≤ loanProgress target accumulated ∧
      loanProgress target accumulated ≤ 100 ∧
      (loanProgress target accumulated = 100 ↔ target ≤ accumulated)) := by
  refine ⟨?_, ?_, ?_⟩ <;>
    simpa [goalProgress, debtProgress, loanProgress] using
      progress_clamp target accumulated ht ha

/-- C6 witness: the spec's goal scenario, target 5000 and accumulated
2000, instantiates the clamp property. -/
theorem claim_C6_witness :
    (0 ≤ goalProgress 5000 2000 ∧ goalProgress 5000 2000 ≤ 100 ∧
      (goalProgress 5000 2000 = 100 ↔ (5000 : Rat) ≤ 2000))
  ∧ (0 ≤ debtProgress 5000 2000 ∧ debtProgress 5000 2000 ≤ 100 ∧
      (debtProgress 5000 2000 = 100 ↔ (5000 : Rat) ≤ 2000))
  ∧ (0 ≤ loanProgress 5000 2000 ∧ loanProgress 5000 2000 ≤ 100 ∧
      (loanProgress 5000 2000 = 100 ↔ (5000 : Rat) ≤ 2000)) :=
  claim_C6 5000 2000 (by norm_num) (by norm_num)

/-- C6 counterexample: the dashboard goal projection
(`Math.round` with no clamp, routes/dashboard.ts) reports 200 for a goal
with target 1000 and accumulated 2000, and reports 100 for accumulated
995 < target 1000, refuting both the upper bound and the
`progress = 100 ↔ accumulated ≥ target` equivalence. -/
theorem claim_C6_cex :
    dashboardGoalProgress 1000 2000 = 200
  ∧ ¬ dashboardGoalProgress 1000 2000 ≤ 100
  ∧ dashboardGoalProgress 1000 995 = 100
  ∧ ¬ (1000 : Rat) ≤ 995 := by
  refine ⟨?_, ?_, ?_, by norm_num⟩ <;>
    norm_num [dashboardGoalProgress, jsRound]

/-- Every month has at least 28 days. -/
theorem daysInMonth_ge (y m : Int) : 28 ≤ daysInMonth y m := by
  unfold daysInMonth
  split_ifs <;> norm_num

/-- A day that fits in its month is not normalised further. -/
theorem rollDay_of_le {fuel : Nat} {y m day : Int}
    (h : day ≤ daysInMonth y m) : rollDay (fuel + 1) y m day = ⟨y, m, day⟩ := by
  simp only [rollDay]
  rw [if_neg (by omega)]

/-- Applying `setMonth(getMonth() + 1)` to a valid date whose day is at most 28
moves to the same day of the following month (carrying December into
January of the next year). -/
theorem jsAddMonths_one_eq (y m d : Int) (hm1 : 1 ≤ m) (hm2 : m ≤ 12)
    (hd : d ≤ 28) :
    jsAddMonths ⟨y, m, d⟩ 1 =
      (if m = 12 then ⟨y + 1, 1, d⟩ else ⟨y, m + 1, d⟩ : CivilDate) := by
  have hd' : ∀ y' m', d ≤ daysInMonth y' m' :=
    fun y' m' => le_trans hd (daysInMonth_ge y' m')
  simp only [jsAddMonths]
  rw [Int.fdiv_eq_ediv _ (by norm_num)]
  rw [show (600 : Nat) = 599 + 1 from rfl]
  by_cases h12 : m = 12
  · subst h12
    norm_num
    exact rollDay_of_le (hd' _ _)
  · rw [if_neg h12]
    have em : m + 1 - 1 = m := by ring
    have e1 : (m + 1 - 1) / 12 = 0 := by rw [em]; omega
    have e2 : (m + 1 - 1) % 12 = m := by rw [em]; omega
    rw [e1, e2, rollDay_of_le (hd' _ _)]
    norm_num

/-- Applying `setDate(getDate() + n)` for `0 ≤ n` stays in the month when the
shifted day still fits. -/
theorem jsAddDays_eq (y m d n : Int) (h : d + n ≤ daysInMonth y m) :
    jsAddDays ⟨y, m, d⟩ n = ⟨y, m, d + n⟩ := by
  simp only [jsAddDays]
  rw [show (600 : Nat) = 599 + 1 from rfl]
  exact rollDay_of_le h

/-- C7 (amended): the recurrence-advance function maps weekly to +7
days, biweekly to +14 days, monthly/quarterly to JS `setMonth` calendar
arithmetic (+1/+3 months with day-overflow normalisation rolling into
the following month), yearly to +1 year;
`advance("2024-02-15", "yearly") = "2025-02-15"`, and
`advance("2025-01-31", "monthly")` yields `"2025-03-03"` — a valid
calendar date, but in March, not a date of the next month (February). -/
theorem claim_C7 (d : CivilDate) (hm1 : 1 ≤ d.month) (hm2 : d.month ≤ 12)
    (hd28 : d.day ≤ 28) :
    getNextDueDate "2024-02-15" "yearly" = "2025-02-15"
  ∧ getNextDueDate "2025-01-31" "monthly" = "2025-03-03"
  ∧ getNextDueDate "2025-03-10" "weekly" = "2025-03-17"
  ∧ getNextDueDate "2025-03-10" "biweekly" = "2025-03-24"
  ∧ getNextDueDate "2025-01-15" "quarterly" = "2025-04-15"
  ∧ jsAddMonths d 1 =
      (if d.month = 12 then ⟨d.year + 1, 1, d.day⟩
       else ⟨d.year, d.month + 1, d.day⟩ : CivilDate)
  ∧ (d.day + 7 ≤ daysInMonth d.year d.month →
      jsAddDays d 7 = ⟨d.year, d.month, d.day + 7⟩)
  ∧ (d.day + 14 ≤ daysInMonth d.year d.month →
      jsAddDays d 14 = ⟨d.year, d.month, d.day + 14⟩) := by
  obtain ⟨y, m, dd⟩ := d
  refine ⟨by decide, by decide, by decide, by decide, by decide, ?_, ?_, ?_⟩
  · exact jsAddMonths_one_eq y m dd hm1 hm2 hd28
  · exact fun h => jsAddDays_eq y m dd 7 h
  · exact fun h => jsAddDays_eq y m dd 14 h

/-- C7 witness: the general conjuncts instantiated at 2025-04-10. -/
theorem claim_C7_witness :
    getNextDueDate "2024-02-15" "yearly" = "2025-02-15"
  ∧ getNextDueDate "2025-01-31" "monthly" = "2025-03-03"
  ∧ getNextDueDate "2025-03-10" "weekly" = "2025-03-17"
  ∧ getNextDueDate "2025-03-10" "biweekly" = "2025-03-24"
  ∧ getNextDueDate "2025-01-15" "quarterly" = "2025-04-15"
  ∧ jsAddMonths ⟨2025, 4, 10⟩ 1 =
      (if (4 : Int) = 12 then ⟨2026, 1, 10⟩ else ⟨2025, 5, 10⟩ : CivilDate)
  ∧ ((10 : Int) + 7 ≤ daysInMonth 2025 4 →
      jsAddDays ⟨2025, 4, 10⟩ 7 = ⟨2025, 4, 17⟩)
  ∧ ((10 : Int) + 14 ≤ daysInMonth 2025 4 →
      jsAddDays ⟨2025, 4, 10⟩ 14 = ⟨2025, 4, 24⟩) :=
  claim_C7 ⟨2025, 4, 10⟩ (by norm_num) (by norm_num) (by norm_num)

/-- C7 counterexample: `advance("2025-01-31", "monthly")` is
`"2025-03-03"`, whose month is 3 — not the month after January — so the
result is not a next month's (February) date. -/
theorem claim_C7_cex :
    getNextDueDate "2025-01-31" "monthly" = "2025-03-03"
  ∧ (parseDate (getNextDueDate "2025-01-31" "monthly")).month = 3
  ∧ (parseDate "2025-01-31").month + 1 = 2 := by decide

/-- C8 (amended): bulk generation from a debt with
`principalAmount = 1200`, `totalInstallments = 12`,
`startDate = "2025-01-01"` creates, in one batch insert, 12 scheduled
payments of amount 100 each, monthly-spaced and due on the 1st of each
month starting with the start date itself (2025-01-01 through
2025-12-01), each pending, priority high, linked to the debt and to no
installment row. -/
theorem claim_C8 :
    (fromDebtPayments debtC8 idsC8 "now").length = 12
  ∧ (fromDebtPayments debtC8 idsC8 "now").map ScheduledPayment.dueDate =
      ["2025-01-01", "2025-02-01", "2025-03-01", "2025-04-01", "2025-05-01",
       "2025-06-01", "2025-07-01", "2025-08-01", "2025-09-01", "2025-10-01",
       "2025-11-01", "2025-12-01"]
  ∧ (∀ p ∈ fromDebtPayments debtC8 idsC8 "now",
      p.amount = 100 ∧ p.status = SPStatus.pending ∧ p.priority = "high" ∧
      p.debtId = some "debt1" ∧ p.debtInstallmentId = none ∧
      p.accountId = none ∧ p.isRecurring = false) := by
  refine ⟨by decide, by decide, ?_⟩
  intro p hp
  simp only [fromDebtPayments, debtC8, List.mem_map] at hp
  obtain ⟨i, hi, rfl⟩ := hp
  refine ⟨?_, rfl, rfl, rfl, rfl, rfl, rfl⟩
  norm_num

/-- C8 counterexample: the first generated payment is due on the debt's
start date itself — the same month and year as `startDate` — not on the
1st of a subsequent month. -/
theorem claim_C8_cex :
    ((fromDebtPayments debtC8 idsC8 "now").head?).map
      ScheduledPayment.dueDate = some "2025-01-01"
  ∧ debtC8.startDate = "2025-01-01"
  ∧ (parseDate "2025-01-01").month = (parseDate debtC8.startDate).month
  ∧ (parseDate "2025-01-01").year = (parseDate debtC8.startDate).year := by
  decide

/-- A filtered-map sum is invariant under permutation of the rows. -/
theorem sum_map_filter_perm {α : Type} (f : α → Rat) (p : α → Bool)
    {l l' : List α} (h : l.Perm l') :
    ((l.filter p).map f).sum = ((l'.filter p).map f).sum :=
  List.Perm.sum_eq ((h.filter p).map f)

/-- C1 (amended): the account-listing read computes exactly the spec's
balance identity
`initialBalance + Σincome − Σexpense + Σtransfers-in − Σ(transfers-out + fee)`,
invariantly under any reordering of the ledger rows, and an account with
zero matching rows reports its initial balance; the single-account read,
however, computes the identity with the transfer terms omitted — it
equals the spec formula evaluated with no transfers — and is itself
order-invariant. -/
theorem claim_C1 (txs txs' : List Transaction) (trs trs' : List Transfer)
    (uid : String) (acc : Account)
    (hptx : txs.Perm txs') (hptr : trs.Perm trs') :
    listAccountBalance txs trs uid acc = specCurrentBalance txs trs uid acc
  ∧ listAccountBalance txs' trs' uid acc = listAccountBalance txs trs uid acc
  ∧ ((∀ t ∈ txs, ¬ (t.accountId = acc.id ∧ t.userId = uid)) →
     (∀ t ∈ trs, ¬ (t.toAccountId = acc.id ∧ t.userId = uid) ∧
                 ¬ (t.fromAccountId = acc.id ∧ t.userId = uid)) →
     listAccountBalance txs trs uid acc = acc.initialBalance)
  ∧ singleAccountBalance txs uid acc = specCurrentBalance txs [] uid acc
  ∧ singleAccountBalance txs' uid acc = singleAccountBalance txs uid acc := by
  have etx : ∀ (ty : TxType) (l : List Transaction),
      l.filter (fun t => decide (t.accountId = acc.id ∧ t.userId = uid ∧ t.type = ty)) =
      l.filter (fun t => decide (t.userId = uid ∧ t.accountId = acc.id ∧ t.type = ty)) := by
    intro ty l
    apply List.filter_congr
    intro t _
    exact decide_eq_decide.mpr (by tauto)
  have etr1 : ∀ (l : List Transfer),
      l.filter (fun t => decide (t.toAccountId = acc.id ∧ t.userId = uid)) =
      l.filter (fun t => decide (t.userId = uid ∧ t.toAccountId = acc.id)) := by
    intro l
    apply List.filter_congr
    intro t _
    exact decide_eq_decide.mpr (by tauto)
  have etr2 : ∀ (l : List Transfer),
      l.filter (fun t => decide (t.fromAccountId = acc.id ∧ t.userId = uid)) =
      l.filter (fun t => decide (t.userId = uid ∧ t.fromAccountId = acc.id)) := by
    intro l
    apply List.filter_congr
    intro t _
    exact decide_eq_decide.mpr (by tauto)
  refine ⟨?_, ?_, ?_, ?_, ?_⟩
  · simp only [listAccountBalance, specCurrentBalance, incomeSum, expenseSum,
      transfersInSum, transfersOutSum, etx, etr1, etr2]
  · simp only [listAccountBalance, incomeSum, expenseSum, transfersInSum,
      transfersOutSum,
      sum_map_filter_perm Transaction.amount _ hptx,
      sum_map_filter_perm Transfer.amount _ hptr,
      sum_map_filter_perm (fun t => t.amount + t.fee.getD 0) _ hptr]
  · intro h1 h2
    have f1 : ∀ (ty : TxType),
        txs.filter (fun t => decide (t.accountId = acc.id ∧ t.userId = uid ∧ t.type = ty)) = [] := by
      intro ty
      rw [List.filter_eq_nil_iff]
      intro t ht
      simpa using fun ha hu _ => h1 t ht ⟨ha, hu⟩
    have f2 : trs.filter (fun t => decide (t.toAccountId = acc.id ∧ t.userId = uid)) = [] := by
      rw [List.filter_eq_nil_iff]
      intro t ht
      simpa using fun ha hu => (h2 t ht).1 ⟨ha, hu⟩
    have f3 : trs.filter (fun t => decide (t.fromAccountId = acc.id ∧ t.userId = uid)) = [] := by
      rw [List.filter_eq_nil_iff]
      intro t ht
      simpa using fun ha hu => (h2 t ht).2 ⟨ha, hu⟩
    simp only [listAccountBalance, incomeSum, expenseSum, transfersInSum,
      transfersOutSum, f1, f2, f3, List.map_nil, List.sum_nil]
    ring
  · simp only [singleAccountBalance, specCurrentBalance, incomeSum, expenseSum,
      etx, List.filter_nil, List.map_nil, List.sum_nil]
    ring
  · simp only [singleAccountBalance, incomeSum, expenseSum,
      sum_map_filter_perm Transaction.amount _ hptx]

/-- C1 witness: a permuted two-entry ledger on `accA` instantiates the
amended identity. -/
theorem claim_C1_witness :
    (listAccountBalance [sampleTx "x1" "userA" "accA" TxType.income 300,
        sampleTx "x2" "userA" "accA" TxType.expense 120] [trC1] "userA" accC1 =
      specCurrentBalance [sampleTx "x1" "userA" "accA" TxType.income 300,
        sampleTx "x2" "userA" "accA" TxType.expense 120] [trC1] "userA" accC1)
  ∧ (listAccountBalance [sampleTx "x2" "userA" "accA" TxType.expense 120,
        sampleTx "x1" "userA" "accA" TxType.income 300] [trC1] "userA" accC1 =
      listAccountBalance [sampleTx "x1" "userA" "accA" TxType.income 300,
        sampleTx "x2" "userA" "accA" TxType.expense 120] [trC1] "userA" accC1)
  ∧ ((∀ t ∈ [sampleTx "x1" "userA" "accA" TxType.income 300,
        sampleTx "x2" "userA" "accA" TxType.expense 120],
        ¬ (t.accountId = accC1.id ∧ t.userId = "userA")) →
     (∀ t ∈ [trC1], ¬ (t.toAccountId = accC1.id ∧ t.userId = "userA") ∧
        ¬ (t.fromAccountId = accC1.id ∧ t.userId = "userA")) →
     listAccountBalance [sampleTx "x1" "userA" "accA" TxType.income 300,
        sampleTx "x2" "userA" "accA" TxType.expense 120] [trC1] "userA" accC1 =
       accC1.initialBalance)
  ∧ (singleAccountBalance [sampleTx "x1" "userA" "accA" TxType.income 300,
        sampleTx "x2" "userA" "accA" TxType.expense 120] "userA" accC1 =
      specCurrentBalance [sampleTx "x1" "userA" "accA" TxType.income 300,
        sampleTx "x2" "userA" "accA" TxType.expense 120] [] "userA" accC1)
  ∧ (singleAccountBalance [sampleTx "x2" "userA" "accA" TxType.expense 120,
        sampleTx "x1" "userA" "accA" TxType.income 300] "userA" accC1 =
      singleAccountBalance [sampleTx "x1" "userA" "accA" TxType.income 300,
        sampleTx "x2" "userA" "accA" TxType.expense 120] "userA" accC1) :=
  claim_C1
    [sampleTx "x1" "userA" "accA" TxType.income 300,
     sampleTx "x2" "userA" "accA" TxType.expense 120]
    [sampleTx "x2" "userA" "accA" TxType.expense 120,
     sampleTx "x1" "userA" "accA" TxType.income 300]
    [trC1] [trC1] "userA" accC1 (List.Perm.swap _ _ _) (List.Perm.refl _)

/-- C1 counterexample: with a single transfer of 200 + fee 5 out of
`accA` and no transactions, the single-account read reports the initial
balance 1000 while the claimed formula yields 795. -/
theorem claim_C1_cex :
    singleAccountBalance [] "userA" accC1 = 1000
  ∧ specCurrentBalance [] [trC1] "userA" accC1 = 795
  ∧ singleAccountBalance [] "userA" accC1 ≠
      specCurrentBalance [] [trC1] "userA" accC1 := by
  refine ⟨?_, ?_, ?_⟩ <;>
    · simp only [singleAccountBalance, specCurrentBalance, incomeSum,
        expenseSum, accC1, trC1]
      simp
      try norm_num

/-- C2 (amended): the dashboard-wide balance uses the all-outflow debit
set (`expense ∪ debt_payment ∪ goal_contribution ∪ loan_payment`) where
the per-account-card view debits `expense` only — a non-expense outflow
entry lowers the dashboard balance but leaves the card balance
unchanged, while an `expense` entry lowers both — but the dashboard-wide
mode carries no transfer terms at all: it equals the claimed formula
only when evaluated with no transfers.  The computation is invariant
under reordering of the ledger. -/
theorem claim_C2 (txs txs' : List Transaction) (t : Transaction)
    (aid uid : String) (init : Rat) (trs : List Transfer) (acc : Account)
    (hperm : txs.Perm txs') (hacc : acc.id = aid) :
    calculateAccountBalance txs aid uid init =
      claimDashboardBalance txs [] aid uid init
  ∧ calculateAccountBalance txs' aid uid init =
      calculateAccountBalance txs aid uid init
  ∧ (t.accountId = aid → t.userId = uid →
      (t.type = TxType.debt_payment ∨ t.type = TxType.goal_contribution ∨
       t.type = TxType.loan_payment) →
      calculateAccountBalance (t :: txs) aid uid init =
        calculateAccountBalance txs aid uid init - t.amount
      ∧ listAccountBalance (t :: txs) trs uid acc =
          listAccountBalance txs trs uid acc)
  ∧ (t.accountId = aid → t.userId = uid → t.type = TxType.expense →
      calculateAccountBalance (t :: txs) aid uid init =
        calculateAccountBalance txs aid uid init - t.amount
      ∧ listAccountBalance (t :: txs) trs uid acc =
          listAccountBalance txs trs uid acc - t.amount) := by
  refine ⟨?_, ?_, ?_, ?_⟩
  · have e1 : ∀ (l : List Transaction),
        l.filter (fun x => decide (x.accountId = aid ∧ x.userId = uid ∧
          x.type = TxType.income)) =
        l.filter (fun x => decide (x.userId = uid ∧ x.accountId = aid ∧
          x.type = TxType.income)) := by
      intro l
      apply List.filter_congr
      intro x _
      exact decide_eq_decide.mpr (by tauto)
    have e2 : ∀ (l : List Transaction),
        l.filter (fun x => decide (x.accountId = aid ∧ x.userId = uid ∧
          (x.type = TxType.expense ∨ x.type = TxType.debt_payment ∨
           x.type = TxType.goal_contribution ∨ x.type = TxType.loan_payment))) =
        l.filter (fun x => decide (x.userId = uid ∧ x.accountId = aid ∧
          (x.type = TxType.expense ∨ x.type = TxType.debt_payment ∨
           x.type = TxType.goal_contribution ∨ x.type = TxType.loan_payment))) := by
      intro l
      apply List.filter_congr
      intro x _
      exact decide_eq_decide.mpr (by tauto)
    simp only [calculateAccountBalance, claimDashboardBalance, incomeSum,
      outflowSum, e1, e2, List.filter_nil, List.map_nil, List.sum_nil]
    ring
  · simp only [calculateAccountBalance, incomeSum, outflowSum,
      sum_map_filter_perm Transaction.amount _ hperm]
  · intro ha hu hty
    constructor
    · rcases hty with h | h | h <;>
        · simp only [calculateAccountBalance, incomeSum, outflowSum,
            List.filter_cons, ha, hu, h]
          simp
          ring
    · rcases hty with h | h | h <;>
        · simp only [listAccountBalance, incomeSum, expenseSum,
            transfersInSum, transfersOutSum, List.filter_cons, ha, hu, h]
          simp
  · intro ha hu hty
    constructor
    · simp only [calculateAccountBalance, incomeSum, outflowSum,
        List.filter_cons, ha, hu, hty]
      simp
      ring
    · simp only [listAccountBalance, incomeSum, expenseSum,
        transfersInSum, transfersOutSum, List.filter_cons, ha, hu, hty, hacc]
      simp
      ring

/-- C2 witness: a `debt_payment` of 150 on `accA` and the account-card
view of the same account. -/
theorem claim_C2_witness :
    (calculateAccountBalance [] "accA" "userA" 1000 =
      claimDashboardBalance [] [] "accA" "userA" 1000)
  ∧ (calculateAccountBalance [] "accA" "userA" 1000 =
      calculateAccountBalance [] "accA" "userA" 1000)
  ∧ (((sampleTx "d1" "userA" "accA" TxType.debt_payment 150).accountId = "accA" →
      (sampleTx "d1" "userA" "accA" TxType.debt_payment 150).userId = "userA" →
      ((sampleTx "d1" "userA" "accA" TxType.debt_payment 150).type = TxType.debt_payment ∨
       (sampleTx "d1" "userA" "accA" TxType.debt_payment 150).type = TxType.goal_contribution ∨
       (sampleTx "d1" "userA" "accA" TxType.debt_payment 150).type = TxType.loan_payment) →
      calculateAccountBalance [sampleTx "d1" "userA" "accA" TxType.debt_payment 150]
          "accA" "userA" 1000 =
        calculateAccountBalance [] "accA" "userA" 1000 -
          (sampleTx "d1" "userA" "accA" TxType.debt_payment 150).amount
      ∧ listAccountBalance [sampleTx "d1" "userA" "accA" TxType.debt_payment 150]
          [] "userA" accC1 =
          listAccountBalance [] [] "userA" accC1))
  ∧ ((sampleTx "d1" "userA" "accA" TxType.debt_payment 150).accountId = "accA" →
      (sampleTx "d1" "userA" "accA" TxType.debt_payment 150).userId = "userA" →
      (sampleTx "d1" "userA" "accA" TxType.debt_payment 150).type = TxType.expense →
      calculateAccountBalance [sampleTx "d1" "userA" "accA" TxType.debt_payment 150]
          "accA" "userA" 1000 =
        calculateAccountBalance [] "accA" "userA" 1000 -
          (sampleTx "d1" "userA" "accA" TxType.debt_payment 150).amount
      ∧ listAccountBalance [sampleTx "d1" "userA" "accA" TxType.debt_payment 150]
          [] "userA" accC1 =
          listAccountBalance [] [] "userA" accC1 -
            (sampleTx "d1" "userA" "accA" TxType.debt_payment 150).amount) :=
  claim_C2 [] [] (sampleTx "d1" "userA" "accA" TxType.debt_payment 150)
    "accA" "userA" 1000 [] accC1 (List.Perm.refl _) rfl

/-- C2 counterexample: with no transactions and a single transfer of 200
into `accA`, the dashboard balance helper reports the initial balance
1000 while the claimed formula (which includes the transfer terms)
yields 1200. -/
theorem claim_C2_cex :
    calculateAccountBalance [] "accA" "userA" 1000 = 1000
  ∧ claimDashboardBalance [] [trC2] "accA" "userA" 1000 = 1200
  ∧ calculateAccountBalance [] "accA" "userA" 1000 ≠
      claimDashboardBalance [] [trC2] "accA" "userA" 1000 := by
  refine ⟨?_, ?_, ?_⟩ <;>
    · simp only [calculateAccountBalance, claimDashboardBalance, incomeSum,
        outflowSum, trC2]
      simp
      try norm_num

/-- C9 (amended): the dashboard-wide total is the sum of
`calculateAccountBalance` over exactly the owner's accounts satisfying
`isActive` — with no `includeInTotal` test — optionally restricted to
the configured non-empty subset of account ids; the `includeInTotal`
flag is honoured only by the accounts-listing total, which sums the
listing balances over exactly the owner's accounts satisfying
`isActive ∧ includeInTotal` and admits no configured subset. -/
theorem claim_C9 (accs : List Account) (txs : List Transaction)
    (trs : List Transfer) (uid : String) (ids : Option (List String))
    (includeInactive : Bool) :
    dashboardTotalBalance accs txs uid ids =
      specDashboardTotalBalance accs txs uid ids
  ∧ accountsListTotalBalance accs txs trs uid includeInactive =
      specAccountsListTotalBalance accs txs trs uid := by
  constructor
  · simp only [dashboardTotalBalance, specDashboardTotalBalance]
    congr 1
    congr 1
    apply List.filter_congr
    intro a _
    cases ids with
    | none =>
      by_cases hu : a.userId = uid <;> cases ha : a.isActive <;> simp [hu, ha]
    | some l =>
      rcases Decidable.em (l = []) with hl | hl
      · subst hl
        by_cases hu : a.userId = uid <;> cases ha : a.isActive <;> simp [hu, ha]
      · have hlen : 0 < l.length := List.length_pos.mpr hl
        by_cases hu : a.userId = uid <;> cases ha : a.isActive <;>
          by_cases hm : a.id ∈ l <;> simp [hu, ha, hm, hlen, hl]
  · simp only [accountsListTotalBalance, specAccountsListTotalBalance,
      List.filter_filter]
    congr 1
    congr 1
    apply List.filter_congr
    intro a _
    cases includeInactive <;>
      by_cases hu : a.userId = uid <;>
        cases ha : a.isActive <;> cases hi : a.includeInTotal <;>
          simp [hu, ha, hi]

/-- C9 counterexample: an active account with `includeInTotal = false`
and initial balance 500 is included by the dashboard total (which
reports 500) but excluded by the claimed formula (which reports 0). -/
theorem claim_C9_cex :
    dashboardTotalBalance [accC9] [] "userA" none = 500
  ∧ claimTotalPortfolioBalance [accC9] [] "userA" none = 0
  ∧ dashboardTotalBalance [accC9] [] "userA" none ≠
      claimTotalPortfolioBalance [accC9] [] "userA" none := by
  refine ⟨?_, ?_, ?_⟩ <;>
    · simp only [dashboardTotalBalance, claimTotalPortfolioBalance,
        calculateAccountBalance, incomeSum, outflowSum, accC9]
      simp
      try norm_num

/-- Filtering by a predicate is determined by first filtering by any
weaker predicate. -/
theorem filter_subpred {α : Type} (p q : α → Bool)
    (himp : ∀ x, p x = true → q x = true) (l : List α) :
    l.filter p = (l.filter q).filter p := by
  rw [List.filter_filter]
  apply List.filter_congr
  intro a _
  cases hp : p a
  · simp
  · simp [himp a hp]

/-- Two lists with the same rows under a weaker filter agree under every
stronger filter. -/
theorem filter_eq_of_agree {α : Type} (p q : α → Bool)
    (himp : ∀ x, p x = true → q x = true) {l₁ l₂ : List α}
    (h : l₁.filter q = l₂.filter q) : l₁.filter p = l₂.filter p := by
  rw [filter_subpred p q himp l₁, filter_subpred p q himp l₂, h]

/-- C10 (confirmed): every derivation — account balances (listing,
single-account and dashboard modes), goal/debt/loan accumulations, and
the dashboard portfolio total — is scoped by the owner id: its value for
owner `uid` is identical over any two stores that agree on `uid`'s rows,
however the other owners' rows differ. -/
theorem claim_C10 (uid aid gid did lid : String) (init : Rat) (acc : Account)
    (txs₁ txs₂ : List Transaction) (trs₁ trs₂ : List Transfer)
    (accs₁ accs₂ : List Account) (ids : Option (List String))
    (htx : txs₁.filter (fun t => t.userId == uid) =
      txs₂.filter (fun t => t.userId == uid))
    (htr : trs₁.filter (fun t => t.userId == uid) =
      trs₂.filter (fun t => t.userId == uid))
    (haccs : accs₁.filter (fun a => a.userId == uid) =
      accs₂.filter (fun a => a.userId == uid)) :
    calculateAccountBalance txs₁ aid uid init =
      calculateAccountBalance txs₂ aid uid init
  ∧ listAccountBalance txs₁ trs₁ uid acc = listAccountBalance txs₂ trs₂ uid acc
  ∧ singleAccountBalance txs₁ uid acc = singleAccountBalance txs₂ uid acc
  ∧ goalCurrentAmount txs₁ uid gid = goalCurrentAmount txs₂ uid gid
  ∧ debtPaidAmount txs₁ uid did = debtPaidAmount txs₂ uid did
  ∧ loanReceivedAmount txs₁ uid lid = loanReceivedAmount txs₂ uid lid
  ∧ dashboardTotalBalance accs₁ txs₁ uid ids =
      dashboardTotalBalance accs₂ txs₂ uid ids := by
  have ftx : ∀ (p : Transaction → Bool), (∀ x, p x = true → x.userId = uid) →
      txs₁.filter p = txs₂.filter p := by
    intro p hp
    exact filter_eq_of_agree p _
      (fun x hx => by simp [hp x hx]) htx
  have ftr : ∀ (p : Transfer → Bool), (∀ x, p x = true → x.userId = uid) →
      trs₁.filter p = trs₂.filter p := by
    intro p hp
    exact filter_eq_of_agree p _
      (fun x hx => by simp [hp x hx]) htr
  have hcalc : ∀ (aid' : String) (init' : Rat),
      calculateAccountBalance txs₁ aid' uid init' =
        calculateAccountBalance txs₂ aid' uid init' := by
    intro aid' init'
    simp only [calculateAccountBalance, incomeSum, outflowSum]
    rw [ftx _ (fun x hx => (of_decide_eq_true hx).2.1),
        ftx _ (fun x hx => (of_decide_eq_true hx).2.1)]
  refine ⟨hcalc aid init, ?_, ?_, ?_, ?_, ?_, ?_⟩
  · simp only [listAccountBalance, incomeSum, expenseSum, transfersInSum,
      transfersOutSum]
    rw [ftx _ (fun x hx => (of_decide_eq_true hx).2.1),
        ftx _ (fun x hx => (of_decide_eq_true hx).2.1),
        ftr _ (fun x hx => (of_decide_eq_true hx).2),
        ftr _ (fun x hx => (of_decide_eq_true hx).2)]
  · simp only [singleAccountBalance, incomeSum, expenseSum]
    rw [ftx _ (fun x hx => (of_decide_eq_true hx).2.1),
        ftx _ (fun x hx => (of_decide_eq_true hx).2.1)]
  · simp only [goalCurrentAmount]
    rw [ftx _ (fun x hx => (of_decide_eq_true hx).1)]
  · simp only [debtPaidAmount]
    rw [ftx _ (fun x hx => (of_decide_eq_true hx).1)]
  · simp only [loanReceivedAmount]
    rw [ftx _ (fun x hx => (of_decide_eq_true hx).1)]
  · simp only [dashboardTotalBalance]
    have hfa : ∀ (p : Account → Bool), (∀ x, p x = true → x.userId = uid) →
        accs₁.filter p = accs₂.filter p := by
      intro p hp
      exact filter_eq_of_agree p _
        (fun x hx => by simp [hp x hx]) haccs
    rw [hfa _ (fun x hx => by
      have h1 := (Bool.and_eq_true _ _).mp hx
      have h2 := (Bool.and_eq_true _ _).mp h1.1
      exact of_decide_eq_true h2.1)]
    have he : (fun (a : Account) =>
        calculateAccountBalance txs₁ a.id uid a.initialBalance) =
        (fun (a : Account) =>
          calculateAccountBalance txs₂ a.id uid a.initialBalance) :=
      funext (fun a => hcalc a.id a.initialBalance)
    rw [he]

/-- C10 witness: two stores sharing `userA`'s rows and differing on
`userB`'s rows yield identical derivations for `userA`. -/
theorem claim_C10_witness :
    calculateAccountBalance
        [sampleTx "x1" "userA" "accA" TxType.income 300,
         sampleTx "y1" "userB" "accB" TxType.income 999]
        "accA" "userA" 1000 =
      calculateAccountBalance
        [sampleTx "x1" "userA" "accA" TxType.income 300] "accA" "userA" 1000
  ∧ listAccountBalance
        [sampleTx "x1" "userA" "accA" TxType.income 300,
         sampleTx "y1" "userB" "accB" TxType.income 999] [trC1] "userA" accC1 =
      listAccountBalance
        [sampleTx "x1" "userA" "accA" TxType.income 300] [trC1] "userA" accC1
  ∧ singleAccountBalance
        [sampleTx "x1" "userA" "accA" TxType.income 300,
         sampleTx "y1" "userB" "accB" TxType.income 999] "userA" accC1 =
      singleAccountBalance
        [sampleTx "x1" "userA" "accA" TxType.income 300] "userA" accC1
  ∧ goalCurrentAmount
        [sampleTx "x1" "userA" "accA" TxType.income 300,
         sampleTx "y1" "userB" "accB" TxType.income 999] "userA" "g1" =
      goalCurrentAmount
        [sampleTx "x1" "userA" "accA" TxType.income 300] "userA" "g1"
  ∧ debtPaidAmount
        [sampleTx "x1" "userA" "accA" TxType.income 300,
         sampleTx "y1" "userB" "accB" TxType.income 999] "userA" "d1" =
      debtPaidAmount
        [sampleTx "x1" "userA" "accA" TxType.income 300] "userA" "d1"
  ∧ loanReceivedAmount
        [sampleTx "x1" "userA" "accA" TxType.income 300,
         sampleTx "y1" "userB" "accB" TxType.income 999] "userA" "l1" =
      loanReceivedAmount
        [sampleTx "x1" "userA" "accA" TxType.income 300] "userA" "l1"
  ∧ dashboardTotalBalance [accC1]
        [sampleTx "x1" "userA" "accA" TxType.income 300,
         sampleTx "y1" "userB" "accB" TxType.income 999] "userA" none =
      dashboardTotalBalance [accC1]
        [sampleTx "x1" "userA" "accA" TxType.income 300] "userA" none :=
  claim_C10 "userA" "accA" "g1" "d1" "l1" 1000 accC1
    [sampleTx "x1" "userA" "accA" TxType.income 300,
     sampleTx "y1" "userB" "accB" TxType.income 999]
    [sampleTx "x1" "userA" "accA" TxType.income 300]
    [trC1] [trC1] [accC1] [accC1] none
    (by simp [sampleTx]) (by simp) (by simp)

/-- C4 (confirmed): the overdue sweep maps each row of the requesting
owner that is `pending` with `dueDate ≤ today` to the same row with
status `overdue` (and a fresh `updatedAt`), leaves every other row
unchanged, and is idempotent — a second run, even at a later timestamp,
changes nothing. -/
theorem claim_C4 (ps : List ScheduledPayment) (uid today now now' : String) :
    (∀ i : Nat, (markOverduePayments ps uid today now)[i]? =
      (ps[i]?).map (fun p =>
        if p.userId = uid ∧ p.status = SPStatus.pending ∧ p.dueDate ≤ today
        then { p with status := SPStatus.overdue, updatedAt := now }
        else p))
  ∧ markOverduePayments (markOverduePayments ps uid today now) uid today now' =
      markOverduePayments ps uid today now := by
  constructor
  · intro i
    simp [markOverduePayments]
  · simp only [markOverduePayments, List.map_map]
    apply List.map_congr_left
    intro p _
    simp only [Function.comp]
    by_cases h : p.userId = uid ∧ p.status = SPStatus.pending ∧ p.dueDate ≤ today
    · rw [if_pos h, if_neg (by simp)]
    · rw [if_neg h, if_neg h]

/-- C3 (confirmed): settling a payment whose state is `paid` or
`cancelled` is rejected with the corresponding domain error and the
store is unchanged; settling a payment that is neither (pending or
overdue) succeeds, inserts exactly one ledger entry when an account is
linked (none otherwise) and at most one recurrence clone, and a second
settlement attempt on the result fails with the duplicate-settlement
error, leaving the counts as after the first attempt. -/
theorem claim_C3 (s : Store) (uid pid : String) (b b2 : PayInput)
    (now today nid tid now2 today2 nid2 tid2 : String) (p : ScheduledPayment)
    (hfind : findPayment s.payments uid pid = some p) :
    ((p.status = SPStatus.paid ∨ p.status = SPStatus.cancelled) →
      (payPayment s uid pid b now today nid tid =
          Except.error PayError.alreadyPaid ∨
       payPayment s uid pid b now today nid tid =
          Except.error PayError.cancelledPayment)
      ∧ payStep s uid pid b now today nid tid = s)
  ∧ (p.status ≠ SPStatus.paid → p.status ≠ SPStatus.cancelled →
      payPayment s uid pid b now today nid tid =
        Except.ok (payStep s uid pid b now today nid tid)
      ∧ payPayment (payStep s uid pid b now today nid tid) uid pid b2 now2
          today2 nid2 tid2 = Except.error PayError.alreadyPaid
      ∧ (payStep s uid pid b now today nid tid).transactions.length =
          s.transactions.length + (if p.accountId.isSome then 1 else 0)
      ∧ s.payments.length ≤ (payStep s uid pid b now today nid tid).payments.length
      ∧ (payStep s uid pid b now today nid tid).payments.length ≤
          s.payments.length + 1) := by
  constructor
  · rintro (h | h)
    · exact ⟨Or.inl (by simp [payPayment, hfind, h]),
        by simp [payStep, payPayment, hfind, h]⟩
    · exact ⟨Or.inr (by simp [payPayment, hfind, h]),
        by simp [payStep, payPayment, hfind, h]⟩
  · intro hnp hnc
    have hfind' : s.payments.find? (fun q => q.id == pid && q.userId == uid) =
        some p := by
      simpa [findPayment] using hfind
    have hpq := List.find?_some hfind'
    have hpid : p.id = pid := by
      simp only [Bool.and_eq_true, beq_iff_eq] at hpq
      exact hpq.1
    have hfind2 : (s.payments.map (fun q =>
        if q.id = pid then
          { q with status := SPStatus.paid,
                   paidDate := some (b.paidDate.getD today),
                   paidAmount := some (b.paidAmount.getD p.amount),
                   updatedAt := now }
        else q)).find? (fun q => q.id == pid && q.userId == uid) = some
          { p with status := SPStatus.paid,
                   paidDate := some (b.paidDate.getD today),
                   paidAmount := some (b.paidAmount.getD p.amount),
                   updatedAt := now } := by
      rw [List.find?_map]
      have e : ((fun q : ScheduledPayment => q.id == pid && q.userId == uid) ∘
          (fun q => if q.id = pid then
            { q with status := SPStatus.paid,
                     paidDate := some (b.paidDate.getD today),
                     paidAmount := some (b.paidAmount.getD p.amount),
                     updatedAt := now }
          else q)) = fun q : ScheduledPayment => q.id == pid && q.userId == uid := by
        funext q
        by_cases hq : q.id = pid <;> simp [Function.comp, hq]
      rw [e, hfind']
      simp [hpid]
    have hfindApp : ∀ cl : List ScheduledPayment,
        findPayment ((s.payments.map (fun q =>
          if q.id = pid then
            { q with status := SPStatus.paid,
                     paidDate := some (b.paidDate.getD today),
                     paidAmount := some (b.paidAmount.getD p.amount),
                     updatedAt := now }
          else q)) ++ cl) uid pid = some
            { p with status := SPStatus.paid,
                     paidDate := some (b.paidDate.getD today),
                     paidAmount := some (b.paidAmount.getD p.amount),
                     updatedAt := now } := by
      intro cl
      simp only [findPayment]
      rw [List.find?_append, hfind2]
      rfl
    have hsecond : ∀ (l : List ScheduledPayment) (tx2 : List Transaction),
        findPayment l uid pid = some
          { p with status := SPStatus.paid,
                   paidDate := some (b.paidDate.getD today),
                   paidAmount := some (b.paidAmount.getD p.amount),
                   updatedAt := now } →
        payPayment ⟨l, tx2⟩ uid pid b2 now2 today2 nid2 tid2 =
          Except.error PayError.alreadyPaid := by
      intro l tx2 hl
      simp [payPayment, hl]
    obtain ⟨cl, tx, hcl, htx, hS⟩ :
        ∃ (cl : List ScheduledPayment) (tx : List Transaction),
          cl.length ≤ 1 ∧
          tx.length = (if p.accountId.isSome then 1 else 0) ∧
          payPayment s uid pid b now today nid tid = Except.ok
            { payments := (s.payments.map (fun q =>
                if q.id = pid then
                  { q with status := SPStatus.paid,
                           paidDate := some (b.paidDate.getD today),
                           paidAmount := some (b.paidAmount.getD p.amount),
                           updatedAt := now }
                else q)) ++ cl
              transactions := s.transactions ++ tx } := by
      simp only [payPayment, hfind]
      rw [if_neg hnp, if_neg hnc]
      cases hacc : p.accountId with
      | none =>
        cases hrec : p.isRecurring with
        | false =>
          exact ⟨[], [], by norm_num, by simp [hacc], by simp⟩
        | true =>
          cases hfreq : p.recurringFrequency with
          | none => exact ⟨[], [], by norm_num, by simp [hacc], by simp⟩
          | some freq =>
            cases hflag : b.createNextRecurrence with
            | false => exact ⟨[], [], by norm_num, by simp [hacc], by simp⟩
            | true =>
              exact ⟨[nextRecurrence p uid freq nid now], [], by norm_num,
                by simp [hacc], by simp⟩
      | some aid =>
        cases hrec : p.isRecurring with
        | false =>
          exact ⟨[], [settlementTransaction p uid aid tid (b.paidDate.getD today)
            (b.paidAmount.getD p.amount) now], by norm_num,
            by simp [hacc], by simp [hacc]⟩
        | true =>
          cases hfreq : p.recurringFrequency with
          | none =>
            exact ⟨[], [settlementTransaction p uid aid tid (b.paidDate.getD today)
              (b.paidAmount.getD p.amount) now], by norm_num,
              by simp [hacc], by simp [hacc]⟩
          | some freq =>
            cases hflag : b.createNextRecurrence with
            | false =>
              exact ⟨[], [settlementTransaction p uid aid tid (b.paidDate.getD today)
                (b.paidAmount.getD p.amount) now], by norm_num,
                by simp [hacc], by simp [hacc]⟩
            | true =>
              exact ⟨[nextRecurrence p uid freq nid now],
                [settlementTransaction p uid aid tid (b.paidDate.getD today)
                  (b.paidAmount.getD p.amount) now], by norm_num,
                by simp [hacc], by simp [hacc]⟩
    have hstep : payStep s uid pid b now today nid tid =
        { payments := (s.payments.map (fun q =>
            if q.id = pid then
              { q with status := SPStatus.paid,
                       paidDate := some (b.paidDate.getD today),
                       paidAmount := some (b.paidAmount.getD p.amount),
                       updatedAt := now }
            else q)) ++ cl
          transactions := s.transactions ++ tx } := by
      simp [payStep, hS]
    refine ⟨by rw [hstep]; exact hS, ?_, ?_, ?_, ?_⟩
    · rw [hstep]
      exact hsecond _ _ (hfindApp cl)
    · rw [hstep]
      simp [htx]
    · rw [hstep]
      simp
    · rw [hstep]
      simp
      omega

/-- C3 witness: the exactly-once property instantiated on a store with
one pending payment linked to an account. -/
theorem claim_C3_witness :
    findPayment storeC3.payments "userA" "p1" = some pC3
  ∧ (pC3.status ≠ SPStatus.paid → pC3.status ≠ SPStatus.cancelled →
      payPayment storeC3 "userA" "p1" payInputC3 "T1" "2025-02-02" "n1" "x1" =
        Except.ok (payStep storeC3 "userA" "p1" payInputC3 "T1" "2025-02-02" "n1" "x1")
      ∧ payPayment (payStep storeC3 "userA" "p1" payInputC3 "T1" "2025-02-02" "n1" "x1")
          "userA" "p1" payInputC3 "T2" "2025-02-03" "n2" "x2" =
          Except.error PayError.alreadyPaid
      ∧ (payStep storeC3 "userA" "p1" payInputC3 "T1" "2025-02-02" "n1" "x1").transactions.length =
          storeC3.transactions.length + (if pC3.accountId.isSome then 1 else 0)
      ∧ storeC3.payments.length ≤
          (payStep storeC3 "userA" "p1" payInputC3 "T1" "2025-02-02" "n1" "x1").payments.length
      ∧ (payStep storeC3 "userA" "p1" payInputC3 "T1" "2025-02-02" "n1" "x1").payments.length ≤
          storeC3.payments.length + 1) :=
  ⟨rfl, (claim_C3 storeC3 "userA" "p1" payInputC3 payInputC3 "T1" "2025-02-02"
    "n1" "x1" "T2" "2025-02-03" "n2" "x2" pC3 rfl).2⟩

/-- C5 (amended): `paid` and `cancelled` are terminal for the settle
route, the cancel route and the overdue sweep — none of them changes the
status of a payment already in one of those states (the row ids are
unique, as the primary key guarantees); the update route, however,
performs no check of the current status and can set any status,
including moving a paid payment back to pending (see the
counterexample). -/
theorem claim_C5 (s : Store) (uid pid : String) (b : PayInput)
    (now today nid tid now' now'' : String) (i : Nat) (p : ScheduledPayment)
    (hnodup : (s.payments.map ScheduledPayment.id).Nodup)
    (hp : s.payments[i]? = some p)
    (hterm : p.status = SPStatus.paid ∨ p.status = SPStatus.cancelled) :
    ((payStep s uid pid b now today nid tid).payments[i]?).map
        ScheduledPayment.status = some p.status
  ∧ ((cancelStep s.payments uid pid now')[i]?).map
        ScheduledPayment.status = some p.status
  ∧ ((markOverduePayments s.payments uid today now'')[i]?).map
        ScheduledPayment.status = some p.status := by
  have hmem : p ∈ s.payments := List.getElem?_mem hp
  have hlt : i < s.payments.length := (List.getElem?_eq_some.mp hp).1
  refine ⟨?_, ?_, ?_⟩
  · cases hw : findPayment s.payments uid pid with
    | none => simp [payStep, payPayment, hw, hp]
    | some q =>
      by_cases h1 : q.status = SPStatus.paid
      · simp [payStep, payPayment, hw, h1, hp]
      · by_cases h2 : q.status = SPStatus.cancelled
        · simp [payStep, payPayment, hw, h1, h2, hp]
        · have hqmem : q ∈ s.payments := List.mem_of_find?_eq_some
            (show s.payments.find? (fun r => r.id == pid && r.userId == uid) =
              some q from by simpa [findPayment] using hw)
          have hqpred := List.find?_some
            (show s.payments.find? (fun r => r.id == pid && r.userId == uid) =
              some q from by simpa [findPayment] using hw)
          simp only [Bool.and_eq_true, beq_iff_eq] at hqpred
          obtain ⟨cl, hS⟩ : ∃ cl,
              (payStep s uid pid b now today nid tid).payments =
                (s.payments.map (fun r =>
                  if r.id = pid then
                    { r with status := SPStatus.paid,
                             paidDate := some (b.paidDate.getD today),
                             paidAmount := some (b.paidAmount.getD q.amount),
                             updatedAt := now }
                  else r)) ++ cl := by
            simp only [payStep, payPayment, hw]
            rw [if_neg h1, if_neg h2]
            cases hrec : q.isRecurring with
            | false => exact ⟨[], by simp⟩
            | true =>
              cases hfreq : q.recurringFrequency with
              | none => exact ⟨[], by simp⟩
              | some freq =>
                cases hflag : b.createNextRecurrence with
                | false => exact ⟨[], by simp⟩
                | true => exact ⟨[nextRecurrence q uid freq nid now], by simp⟩
          rw [hS, List.getElem?_append, if_pos (by simpa using hlt),
            List.getElem?_map, hp]
          simp only [Option.map_some']
          by_cases hpidq : p.id = pid
          · have hpq : p = q :=
              List.inj_on_of_nodup_map hnodup hmem hqmem (by rw [hpidq, hqpred.1])
            rcases hterm with h | h
            · rw [hpq] at h
              exact absurd h h1
            · rw [hpq] at h
              exact absurd h h2
          · simp [hpidq]
  · cases hw : findPayment s.payments uid pid with
    | none => simp [cancelStep, cancelPayment, hw, hp]
    | some q =>
      by_cases hq : q.status = SPStatus.paid
      · simp [cancelStep, cancelPayment, hw, hq, hp]
      · have hqmem : q ∈ s.payments := List.mem_of_find?_eq_some
          (show s.payments.find? (fun r => r.id == pid && r.userId == uid) =
            some q from by simpa [findPayment] using hw)
        have hqpred := List.find?_some
          (show s.payments.find? (fun r => r.id == pid && r.userId == uid) =
            some q from by simpa [findPayment] using hw)
        simp only [Bool.and_eq_true, beq_iff_eq] at hqpred
        simp only [cancelStep, cancelPayment, hw, if_neg hq]
        rw [List.getElem?_map, hp]
        simp only [Option.map_some']
        by_cases hpidq : p.id = pid
        · have hpq : p = q :=
            List.inj_on_of_nodup_map hnodup hmem hqmem (by rw [hpidq, hqpred.1])
          rcases hterm with h | h
          · rw [hpq] at h
            exact absurd h hq
          · simp [hpidq, h]
        · simp [hpidq]
  · simp only [markOverduePayments, List.getElem?_map, hp]
    rcases hterm with h | h <;> simp [h]

/-- C5 witness: a paid payment is untouched by settle, cancel and the
sweep. -/
theorem claim_C5_witness :
    ((payStep ⟨[pC5], []⟩ "userA" "p5" payInputC3 "T1" "2025-02-02" "n1"
        "x1").payments[0]?).map ScheduledPayment.status = some pC5.status
  ∧ ((cancelStep [pC5] "userA" "p5" "T1")[0]?).map
        ScheduledPayment.status = some pC5.status
  ∧ ((markOverduePayments [pC5] "userA" "2025-02-02" "T1")[0]?).map
        ScheduledPayment.status = some pC5.status :=
  claim_C5 ⟨[pC5], []⟩ "userA" "p5" payInputC3 "T1" "2025-02-02" "n1" "x1"
    "T1" "T1" 0 pC5 (by decide) rfl (Or.inl rfl)

/-- C5 counterexample: the update route moves a `paid` payment back to
`pending` — `paid` is not terminal under the public PATCH operation. -/
theorem claim_C5_cex :
    statusOf [pC5] "p5" = some SPStatus.paid
  ∧ statusOf (updateStep [pC5] "userA" "p5" updC5 "T3") "p5" =
      some SPStatus.pending := by decide

end FinanceTracker
